import Mathlib

/-!
Shallow embedding of the `DockerCompose` class from `src/index.ts` of the
`@futpib/docker-compose` package (the file given as `src/unnamed/part_000`,
which is the current revision; `src/src/index.ts` is an older revision of the
same class with a smaller API).

Modelling conventions:
* The external world (the YAML serializer `YAML.dump`, `fs.writeFile`, and the
  `DOCKER_COMPOSE_STDIO` environment variable) is a record of functions
  (`World`).  `fs.writeFile` may fail, so it returns `Except String Unit`.
* Async control flow is sequentialized: a `Promise` that can reject becomes
  `Except String _`.  `Promise.all(files.map(...))` materializes the files in
  list order (`DockerCompose._getFilesFrom`).
* Spawning a child process (`execa`) is modelled by *producing* an
  `Invocation` value (program name, argument vector, resolved stdio mode).
  An `Except.error` result means the spawn was never reached.
* `await childProcess` before returning is recorded in the `awaited` field of
  `MethodCall`; the method's caller-visible return value (`DockerComposeResult`
  with its `childProcess` handle, or `void`) is the `ret` field.
* JavaScript truthiness on the option values is modelled explicitly:
  a `string | undefined` is `Option String` and is truthy when it is `some s`
  with `s ≠ ""`; a `number | undefined` is `Option Nat` and is truthy when it
  is `some n` with `n ≠ 0`; `boolean | undefined` collapses to `Bool`
  (with the destructuring default of the source as the Lean default).
-/

/-- Structured compose configuration (TS type `Compose` from
`compose-spec-schema`).  It is opaque to the class beyond "can be serialized",
so it is modelled as an association list of entries. -/
structure Compose where
  entries : List (String × String)
deriving DecidableEq

/-- One element of the `file` option: a file-path string or a structured
configuration (`Compose | string`). -/
inductive ComposeFileSource where
  | str (path : String)
  | structured (config : Compose)
deriving DecidableEq

/-- The `file` constructor option: `Compose | string | Array<Compose | string>`. -/
inductive FileField where
  | single (f : ComposeFileSource)
  | list (fs : List ComposeFileSource)
deriving DecidableEq

/-- The session state held by a `DockerCompose` instance after construction. -/
structure DockerCompose where
  _file : FileField
  _directory : String
  _projectName : Option String
deriving DecidableEq

/-- The external collaborators: the YAML serializer (`YAML.dump`, pure), the
filesystem write (`fs.writeFile`, fallible), and the `DOCKER_COMPOSE_STDIO`
environment variable (absent or some string). -/
structure World where
  dump : Compose → String
  writeFile : String → String → Except String Unit
  dockerComposeStdioEnv : Option String

/-- `isProcessStdio` from the source: membership in the enumerated stdio set. -/
def isProcessStdio (x : String) : Bool :=
  x == "inherit" || x == "pipe" || x == "ignore"

/-- The stdio mode used when the caller passes no override:
`DOCKER_COMPOSE_STDIO` defaulted to `'inherit'`, then restricted to the
enumerated set (`isProcessStdio(DOCKER_COMPOSE_STDIO) ? DOCKER_COMPOSE_STDIO :
'inherit'`). -/
def defaultStdio (w : World) : String :=
  let v := w.dockerComposeStdioEnv.getD "inherit"
  if isProcessStdio v then v else "inherit"

/-- JavaScript truthiness of a string: truthy iff non-empty. -/
def strTruthy (s : String) : Bool :=
  !(s == "")

/-- Truthiness of a `string | undefined` value. -/
def optStrTruthy : Option String → Bool
  | some s => strTruthy s
  | none => false

/-- Truthiness of a `number | undefined` value (`0` is falsy). -/
def optNatTruthy : Option Nat → Bool
  | some n => !(n == 0)
  | none => false

/-- Models `path.join(directory, name)` for a directory without a trailing
separator (the only shape the class produces). -/
def pathJoin (directory name : String) : String :=
  directory ++ "/" ++ name

/-- A value stored in a `Record<string, number | string>` option map. -/
inductive JSValue where
  | num (n : Nat)
  | str (s : String)
deriving DecidableEq

/-- JavaScript string conversion of a map value, as performed by
`Array.prototype.join` on `[key, value]`. -/
def JSValue.render : JSValue → String
  | .num n => toString n
  | .str s => s

/-- The subprocess invocation handed to `execa`: program name, full argument
vector and resolved stdio mode.  Producing this value is the model of
spawning the child process. -/
structure Invocation where
  file : String
  args : List String
  stdio : String
deriving DecidableEq

/-- The caller-visible return value of a public method: either a
`DockerComposeResult` exposing the `childProcess` handle, or `void`. -/
inductive MethodReturn where
  | handle (childProcess : Invocation)
  | unit
deriving DecidableEq

/-- The observable behaviour of one public method call: the spawned
invocation, whether the method awaited the child process before returning,
and its caller-visible return value. -/
structure MethodCall where
  invocation : Invocation
  awaited : Bool
  ret : MethodReturn
deriving DecidableEq

/-- The `execa.Options` passthrough; only the `stdio` override is
interpreted by this layer (via the object spread in `command`). -/
structure ExecaOptions where
  stdio : Option String
deriving DecidableEq

/-- `private async _getFile(file, index)`: a string passes through unchanged;
a structured configuration is serialized and written to
`path.join(this._directory, 'docker-compose.' + index + '.yml')`, whose path
is returned.  A write failure rejects. -/
def DockerCompose._getFile (w : World) (dc : DockerCompose)
    (file : ComposeFileSource) (index : Nat) : Except String String :=
  match file with
  | .str s => Except.ok s
  | .structured config =>
      let temporaryYamlFilePath :=
        pathJoin dc._directory ("docker-compose." ++ toString index ++ ".yml")
      let yamlString := w.dump config
      match w.writeFile temporaryYamlFilePath yamlString with
      | .error e => Except.error e
      | .ok _ => Except.ok temporaryYamlFilePath

/-- Normalization of the `file` field performed inside `_getFiles`:
`Array.isArray(this._file) ? this._file : [this._file]`. -/
def normalizeFile : FileField → List ComposeFileSource
  | .list fs => fs
  | .single f => [f]

/-- Sequentialization of `Promise.all(files.map(async (file, index) =>
this._getFile(file, index)))`: resolve each element in order, with its
0-based index, failing on the first rejection. -/
def DockerCompose._getFilesFrom (w : World) (dc : DockerCompose) (index : Nat) :
    List ComposeFileSource → Except String (List String)
  | [] => Except.ok []
  | f :: rest => do
      let p ← dc._getFile w f index
      let ps ← dc._getFilesFrom w (index + 1) rest
      pure (p :: ps)

/-- `private async _getFiles()`: normalize the `file` field to a list and
materialize every element. -/
def DockerCompose._getFiles (w : World) (dc : DockerCompose) :
    Except String (List String) :=
  dc._getFilesFrom w 0 (normalizeFile dc._file)

/-- `private async _getFilesArguments()`:
`files.flatMap(file => ['--file', file])`. -/
def DockerCompose._getFilesArguments (w : World) (dc : DockerCompose) :
    Except String (List String) :=
  (dc._getFiles w).map fun files => files.flatMap fun file => ["--file", file]

/-- `private async _getGlobalArguments()`: the `--project-name` pair (emitted
under JS truthiness of `this._projectName`) followed by the `--file` pairs. -/
def DockerCompose._getGlobalArguments (w : World) (dc : DockerCompose) :
    Except String (List String) :=
  (dc._getFilesArguments w).map fun fileArguments =>
    (match dc._projectName with
     | some n => if strTruthy n then ["--project-name", n] else []
     | none => []) ++ fileArguments

/-- `private _joinArgumentsRecord(option, separator, scale)`:
`Object.entries(scale).flatMap(entry => [option, entry.join(separator)])`.
The map is an association list in insertion order, as `Object.entries`
iterates string keys. -/
def DockerCompose._joinArgumentsRecord (option : String) (separator : String)
    (scale : List (String × JSValue)) : List String :=
  scale.flatMap fun entry => [option, entry.1 ++ separator ++ entry.2.render]

/-- `async command(args, options)`: prepend the global arguments and spawn
`docker-compose` with stdio from the per-call override, else the
environment-derived default.  The produced `Invocation` is the spawned
child process; an error means no spawn happened. -/
def DockerCompose.command (w : World) (dc : DockerCompose) (args : List String)
    (options : Option ExecaOptions) : Except String Invocation :=
  (dc._getGlobalArguments w).map fun globalArguments =>
    { file := "docker-compose"
      args := globalArguments ++ args
      stdio := (options.bind ExecaOptions.stdio).getD (defaultStdio w) }

/-- The public `command` method as seen by the caller: returns the
`DockerComposeResult` handle immediately, never awaiting. -/
def DockerCompose.commandMethod (w : World) (dc : DockerCompose)
    (args : List String) (options : Option ExecaOptions) :
    Except String MethodCall :=
  (dc.command w args options).map fun childProcess =>
    { invocation := childProcess
      awaited := false
      ret := MethodReturn.handle childProcess }

/-- The options object of `up`, with the destructuring defaults of the
source (`detach = true`, empty lists and maps, everything else absent). -/
structure UpOptions where
  abortOnContainerExit : Bool := false
  alwaysRecreateDeps : Bool := false
  attach : List String := []
  attachDependencies : Bool := false
  build : Bool := false
  detach : Bool := true
  exitCodeFrom : Option String := none
  forceRecreate : Bool := false
  noAttach : List String := []
  noBuild : Bool := false
  noDeps : Bool := false
  noLogPrefix : Bool := false
  noRecreate : Bool := false
  noStart : Bool := false
  pull : Option String := none
  quietPull : Bool := false
  removeOrphans : Bool := false
  renewAnonVolumes : Bool := false
  scale : List (String × Nat) := []
  timeout : Option Nat := none
  timestamps : Bool := false
  wait : Bool := false

/-- The subcommand argument vector built inside `up`, in the exact order of
the source. -/
def upArguments (o : UpOptions) : List String :=
  ["up"]
    ++ (if o.abortOnContainerExit then ["--abort-on-container-exit"] else [])
    ++ (if o.alwaysRecreateDeps then ["--always-recreate-deps"] else [])
    ++ (o.attach.map fun service => "--attach=" ++ service)
    ++ (if o.attachDependencies then ["--attach-dependencies"] else [])
    ++ (if o.build then ["--build"] else [])
    ++ (if o.detach then ["--detach"] else [])
    ++ (if optStrTruthy o.exitCodeFrom then
          ["--exit-code-from=" ++ o.exitCodeFrom.getD ""] else [])
    ++ (if o.forceRecreate then ["--force-recreate"] else [])
    ++ (o.noAttach.map fun service => "--no-attach=" ++ service)
    ++ (if o.noBuild then ["--no-build"] else [])
    ++ (if o.noDeps then ["--no-deps"] else [])
    ++ (if o.noLogPrefix then ["--no-log-prefix"] else [])
    ++ (if o.noRecreate then ["--no-recreate"] else [])
    ++ (if o.noStart then ["--no-start"] else [])
    ++ (if optStrTruthy o.pull then ["--pull=" ++ o.pull.getD ""] else [])
    ++ (if o.quietPull then ["--quiet-pull"] else [])
    ++ (if o.removeOrphans then ["--remove-orphans"] else [])
    ++ (if o.renewAnonVolumes then ["--renew-anon-volumes"] else [])
    ++ DockerCompose._joinArgumentsRecord "--scale" "="
        (o.scale.map fun entry => (entry.1, JSValue.num entry.2))
    ++ (if optNatTruthy o.timeout then
          ["--timeout=" ++ toString (o.timeout.getD 0)] else [])
    ++ (if o.timestamps then ["--timestamps"] else [])
    ++ (if o.wait then ["--wait"] else [])

/-- `async up(options, execaOptions)`: spawn via `command`, await the child
process iff `detach` is true, and return `{ childProcess }`. -/
def DockerCompose.up (w : World) (dc : DockerCompose) (o : UpOptions)
    (execaOptions : Option ExecaOptions) : Except String MethodCall :=
  (dc.command w (upArguments o) execaOptions).map fun childProcess =>
    { invocation := childProcess
      awaited := o.detach
      ret := MethodReturn.handle childProcess }

/-- The options object of `run`, with the destructuring defaults of the
source (`detach = true`, empty maps, everything else absent). -/
structure RunOptions where
  build : Bool := false
  detach : Bool := true
  entrypoint : Option String := none
  env : List (String × String) := []
  interactive : Bool := false
  label : List (String × String) := []
  name : Option String := none
  noTTY : Bool := false
  noDeps : Bool := false
  publish : List (String × String) := []
  quietPull : Bool := false
  removeOrphans : Bool := false
  rm : Bool := false
  servicePorts : Bool := false
  useAliases : Bool := false
  user : Option String := none
  volume : List (String × String) := []
  workdir : Option String := none

/-- The subcommand argument vector built inside `run`, in the exact order of
the source: flags, then the positional `service`, the inline `command` (only
when truthy) and the trailing `args`. -/
def runArguments (service : String) (command : Option String)
    (args : List String) (o : RunOptions) : List String :=
  ["run"]
    ++ (if o.build then ["--build"] else [])
    ++ (if o.detach then ["--detach"] else [])
    ++ (if optStrTruthy o.entrypoint then
          ["--entrypoint", o.entrypoint.getD ""] else [])
    ++ DockerCompose._joinArgumentsRecord "--env" "="
        (o.env.map fun entry => (entry.1, JSValue.str entry.2))
    ++ (if o.interactive then ["--interactive"] else [])
    ++ DockerCompose._joinArgumentsRecord "--label" "="
        (o.label.map fun entry => (entry.1, JSValue.str entry.2))
    ++ (if optStrTruthy o.name then ["--name", o.name.getD ""] else [])
    ++ (if o.noTTY then ["--no-TTY"] else [])
    ++ (if o.noDeps then ["--no-deps"] else [])
    ++ DockerCompose._joinArgumentsRecord "--publish" ":"
        (o.publish.map fun entry => (entry.1, JSValue.str entry.2))
    ++ (if o.quietPull then ["--quiet-pull"] else [])
    ++ (if o.removeOrphans then ["--remove-orphans"] else [])
    ++ (if o.rm then ["--rm"] else [])
    ++ (if o.servicePorts then ["--service-ports"] else [])
    ++ (if o.useAliases then ["--use-aliases"] else [])
    ++ (if optStrTruthy o.user then ["--user", o.user.getD ""] else [])
    ++ DockerCompose._joinArgumentsRecord "--volume" ":"
        (o.volume.map fun entry => (entry.1, JSValue.str entry.2))
    ++ (if optStrTruthy o.workdir then ["--workdir", o.workdir.getD ""] else [])
    ++ [service]
    ++ (if optStrTruthy command then [command.getD ""] else [])
    ++ args

/-- `async run(service, command, args, options, execaOptions)`: spawn via
`command`, always await the child process, and return `void`. -/
def DockerCompose.run (w : World) (dc : DockerCompose) (service : String)
    (command : Option String) (args : List String) (o : RunOptions)
    (execaOptions : Option ExecaOptions) : Except String MethodCall :=
  (dc.command w (runArguments service command args o) execaOptions).map
    fun childProcess =>
      { invocation := childProcess
        awaited := true
        ret := MethodReturn.unit }

/-- The options object of `rm`. -/
structure RmOptions where
  stop : Bool := false
  force : Bool := false
  volumes : Bool := false

/-- The subcommand argument vector built inside `rm`. -/
def rmArguments (o : RmOptions) : List String :=
  ["rm"]
    ++ (if o.stop then ["--stop"] else [])
    ++ (if o.force then ["--force"] else [])
    ++ (if o.volumes then ["--volumes"] else [])

/-- `async rm(options, execaOptions)`: spawn via `command`, always await,
return `void`. -/
def DockerCompose.rm (w : World) (dc : DockerCompose) (o : RmOptions)
    (execaOptions : Option ExecaOptions) : Except String MethodCall :=
  (dc.command w (rmArguments o) execaOptions).map fun childProcess =>
    { invocation := childProcess
      awaited := true
      ret := MethodReturn.unit }

/-- The options object of `down`.  `volumes` is a string flag in the source
(`volumes?: string`), not a boolean. -/
structure DownOptions where
  removeOrphans : Bool := false
  rmi : Option String := none
  timeout : Option Nat := none
  volumes : Option String := none

/-- The subcommand argument vector built inside `down`, in the exact order of
the source; `timeout` is rendered as two separate tokens. -/
def downArguments (o : DownOptions) : List String :=
  ["down"]
    ++ (if o.removeOrphans then ["--remove-orphans"] else [])
    ++ (if optStrTruthy o.rmi then ["--rmi", o.rmi.getD ""] else [])
    ++ (if optNatTruthy o.timeout then
          ["--timeout", toString (o.timeout.getD 0)] else [])
    ++ (if optStrTruthy o.volumes then ["--volumes", o.volumes.getD ""] else [])

/-- `async down(options, execaOptions)`: spawn via `command`, always await,
return `void`. -/
def DockerCompose.down (w : World) (dc : DockerCompose) (o : DownOptions)
    (execaOptions : Option ExecaOptions) : Except String MethodCall :=
  (dc.command w (downArguments o) execaOptions).map fun childProcess =>
    { invocation := childProcess
      awaited := true
      ret := MethodReturn.unit }

/-- The path a configuration element resolves to, as the spec states it:
a string element is itself; a structured element at 0-based position `index`
is `<workingDirectory>/docker-compose.<index>.yml`.  Used as the reference
shape in the file-argument claims. -/
def specResolvedPath (dc : DockerCompose) (index : Nat) :
    ComposeFileSource → String
  | .str s => s
  | .structured _ =>
      pathJoin dc._directory ("docker-compose." ++ toString index ++ ".yml")

-- A decidable-equality instance for `Except`, used to evaluate the model on
-- concrete inputs in the witnesses.
deriving instance DecidableEq for Except

/-! ### Concrete fixtures used by witnesses and counterexamples -/

/-- A world whose filesystem writes always succeed. -/
def okWorld : World where
  dump := fun c => String.intercalate "\n" (c.entries.map fun e => e.1 ++ ": " ++ e.2)
  writeFile := fun _ _ => Except.ok ()
  dockerComposeStdioEnv := none

/-- A world whose filesystem writes always fail with `EACCES`. -/
def failWorld : World where
  dump := fun c => String.intercalate "\n" (c.entries.map fun e => e.1 ++ ": " ++ e.2)
  writeFile := fun _ _ => Except.error "EACCES"
  dockerComposeStdioEnv := none

/-- A session with a mixed configuration list (one path string, one structured
configuration), a working directory and a project name. -/
def dcW : DockerCompose where
  _file := FileField.list
    [ComposeFileSource.str "a.yml",
     ComposeFileSource.structured ⟨[("services", "x")]⟩]
  _directory := "workdir"
  _projectName := some "proj"

/-- The global arguments `dcW` produces under `okWorld`. -/
def gW : List String :=
  ["--project-name", "proj", "--file", "a.yml",
   "--file", "workdir/docker-compose.1.yml"]

/-! ### Helper lemmas -/

lemma getFile_ok_of_write_ok (w : World) (dc : DockerCompose)
    (hw : ∀ p s, w.writeFile p s = Except.ok ())
    (f : ComposeFileSource) (i : Nat) :
    dc._getFile w f i = Except.ok (specResolvedPath dc i f) := by
  cases f with
  | str s => rfl
  | structured c => simp [DockerCompose._getFile, specResolvedPath, hw]

lemma getFilesFrom_ok_of_write_ok (w : World) (dc : DockerCompose)
    (hw : ∀ p s, w.writeFile p s = Except.ok ())
    (l : List ComposeFileSource) :
    ∀ i : Nat, dc._getFilesFrom w i l =
      Except.ok ((List.enumFrom i l).map fun p => specResolvedPath dc p.1 p.2) := by
  induction l with
  | nil => intro i; rfl
  | cons f rest ih =>
      intro i
      rw [DockerCompose._getFilesFrom, getFile_ok_of_write_ok w dc hw, ih,
        List.enumFrom_cons]
      rfl

lemma length_flatMap_pair {α : Type} (f g : α → String) (l : List α) :
    (l.flatMap fun x => [f x, g x]).length = 2 * l.length := by
  induction l with
  | nil => rfl
  | cons x rest ih =>
      rw [List.flatMap_cons, List.length_append, ih]
      simp only [List.length_cons, List.length_nil]
      omega

lemma globalArguments_error (w : World) (dc : DockerCompose) (e : String)
    (hf : dc._getFilesArguments w = Except.error e) :
    dc._getGlobalArguments w = Except.error e := by
  rw [DockerCompose._getGlobalArguments, hf]; rfl

/-! ### Claims -/

/-- C1: For every session whose configuration source normalizes to an ordered
list of N elements, `_getFilesArguments` returns exactly N `--file`/`<path>`
token pairs in the same order as the input list; the path for a structured
element at 0-based position i is `<workingDirectory>/docker-compose.<i>.yml`,
and the path for a string element is that string unchanged.  (Stated under
the assumption that the filesystem writes succeed; the produced vector is the
flattening of the pairs, of length 2·N.) -/
theorem C1_filesArguments_pairs (w : World) (dc : DockerCompose)
    (hw : ∀ p s, w.writeFile p s = Except.ok ()) :
    dc._getFilesArguments w =
      Except.ok ((normalizeFile dc._file).enum.flatMap fun p =>
        ["--file", specResolvedPath dc p.1 p.2]) ∧
    ((normalizeFile dc._file).enum.flatMap fun p =>
        ["--file", specResolvedPath dc p.1 p.2]).length =
      2 * (normalizeFile dc._file).length := by
  constructor
  · rw [DockerCompose._getFilesArguments, DockerCompose._getFiles,
      getFilesFrom_ok_of_write_ok w dc hw]
    exact congrArg Except.ok (by simp only [List.flatMap_map]; rfl)
  · rw [length_flatMap_pair]
    simp [List.enum_length]

/-- Witness for C1 at the concrete session `dcW` under `okWorld`. -/
theorem C1_filesArguments_pairs_witness :
    dcW._getFilesArguments okWorld =
      Except.ok ["--file", "a.yml", "--file", "workdir/docker-compose.1.yml"] :=
  ((C1_filesArguments_pairs okWorld dcW fun _ _ => rfl).1).trans (by decide)

/-- C2: `up` with all-default options produces the subcommand argument vector
`['up', '--detach']` appended after the global arguments, with no other
subcommand flags, and awaits the spawned process before returning. -/
theorem C2_up_defaults (w : World) (dc : DockerCompose)
    (eo : Option ExecaOptions) (g : List String)
    (hg : dc._getGlobalArguments w = Except.ok g) :
    (dc.up w {} eo).map (fun c => c.invocation.args) =
      Except.ok (g ++ ["up", "--detach"]) ∧
    (dc.up w {} eo).map MethodCall.awaited = Except.ok true := by
  rw [DockerCompose.up, DockerCompose.command, hg]
  exact ⟨rfl, rfl⟩

/-- Witness for C2 at the concrete session `dcW` under `okWorld`. -/
theorem C2_up_defaults_witness :
    (dcW.up okWorld {} none).map (fun c => c.invocation.args) =
      Except.ok (gW ++ ["up", "--detach"]) ∧
    (dcW.up okWorld {} none).map MethodCall.awaited = Except.ok true :=
  C2_up_defaults okWorld dcW none gW (by decide)

/-- C3: every successful `up` call awaits the spawned process iff the
`detach` option is true (its default), and its result exposes the
child-process handle of the invocation it spawned. -/
theorem C3_up_awaits_iff_detach (w : World) (dc : DockerCompose)
    (o : UpOptions) (eo : Option ExecaOptions) (c : MethodCall)
    (h : dc.up w o eo = Except.ok c) :
    c.awaited = o.detach ∧ c.ret = MethodReturn.handle c.invocation := by
  rw [DockerCompose.up, DockerCompose.command] at h
  cases hg : dc._getGlobalArguments w with
  | error e => rw [hg] at h; exact absurd h (by simp [Except.map])
  | ok g =>
      rw [hg] at h
      simp only [Except.map] at h
      injection h with h2
      rw [← h2]
      exact ⟨rfl, rfl⟩

/-- Witness for C3: a concrete `up({ detach: false })` call returns without
awaiting and its result carries the invocation handle. -/
theorem C3_up_awaits_iff_detach_witness :
    ((dcW.up okWorld { detach := false } none).map MethodCall.awaited =
      Except.ok false) ∧
    ((dcW.up okWorld { detach := false } none).map MethodCall.ret =
      (dcW.up okWorld { detach := false } none).map fun c =>
        MethodReturn.handle c.invocation) := by
  obtain ⟨c, hc⟩ : ∃ c, dcW.up okWorld { detach := false } none = Except.ok c :=
    ⟨_, rfl⟩
  have h := C3_up_awaits_iff_detach okWorld dcW { detach := false } none c hc
  rw [hc]
  constructor
  · show Except.ok c.awaited = Except.ok false
    rw [h.1]
  · show Except.ok c.ret = Except.ok (MethodReturn.handle c.invocation)
    rw [h.2]

/-! ### C4 -/

lemma command_ok_elim (w : World) (dc : DockerCompose) (args : List String)
    (eo : Option ExecaOptions) (f : Invocation → MethodCall) (c : MethodCall)
    (h : (dc.command w args eo).map f = Except.ok c) :
    ∃ inv, c = f inv := by
  cases hg : dc._getGlobalArguments w with
  | error e =>
      rw [DockerCompose.command, hg] at h
      exact absurd h (by simp [Except.map])
  | ok g =>
      rw [DockerCompose.command, hg] at h
      simp only [Except.map] at h
      injection h with h2
      exact ⟨_, h2.symm⟩

/-- The concrete invocation spawned by `dcW.up okWorld {} none`. -/
def upInvW : Invocation where
  file := "docker-compose"
  args := gW ++ ["up", "--detach"]
  stdio := "inherit"

/-- The concrete invocation spawned by `dcW.rm okWorld {} none`. -/
def rmInvW : Invocation where
  file := "docker-compose"
  args := gW ++ ["rm"]
  stdio := "inherit"

/-- The `MethodCall` produced by `dcW.up okWorld {} none`. -/
def upCallW : MethodCall where
  invocation := upInvW
  awaited := true
  ret := MethodReturn.handle upInvW

/-- The `MethodCall` produced by `dcW.rm okWorld {} none`. -/
def rmCallW : MethodCall where
  invocation := rmInvW
  awaited := true
  ret := MethodReturn.unit

/-- C4 counterexample: at a concrete session, `rm({})` succeeds but its
caller-visible return value is `void` (the source type is `Promise<void>`),
not a handle to the invoked process; so not every method of the public call
surface returns such a handle.  (`run` and `down` likewise return
`Promise<void>`.) -/
theorem C4_counterexample_rm_returns_void :
    dcW.rm okWorld {} none = Except.ok rmCallW ∧
    rmCallW.ret = MethodReturn.unit ∧
    MethodReturn.unit ≠ MethodReturn.handle rmCallW.invocation :=
  ⟨by decide, rfl, by decide⟩

/-- C4 (amended): `up` and `command` return a handle to the invoked process
(`up` awaited iff `detach`, `command` never awaited); `run`, `rm` and `down`
await the process to completion but return `void`, exposing no handle. -/
theorem C4_public_surface (w : World) (dc : DockerCompose)
    (eo : Option ExecaOptions) :
    (∀ o c, dc.up w o eo = Except.ok c →
      c.ret = MethodReturn.handle c.invocation ∧ c.awaited = o.detach) ∧
    (∀ args c, dc.commandMethod w args eo = Except.ok c →
      c.ret = MethodReturn.handle c.invocation ∧ c.awaited = false) ∧
    (∀ s cmd args o c, dc.run w s cmd args o eo = Except.ok c →
      c.ret = MethodReturn.unit ∧ c.awaited = true) ∧
    (∀ o c, dc.rm w o eo = Except.ok c →
      c.ret = MethodReturn.unit ∧ c.awaited = true) ∧
    (∀ o c, dc.down w o eo = Except.ok c →
      c.ret = MethodReturn.unit ∧ c.awaited = true) := by
  refine ⟨?_, ?_, ?_, ?_, ?_⟩
  · intro o c h
    obtain ⟨inv, rfl⟩ := command_ok_elim w dc (upArguments o) eo _ c h
    exact ⟨rfl, rfl⟩
  · intro args c h
    obtain ⟨inv, rfl⟩ := command_ok_elim w dc args eo _ c h
    exact ⟨rfl, rfl⟩
  · intro s cmd args o c h
    obtain ⟨inv, rfl⟩ := command_ok_elim w dc (runArguments s cmd args o) eo _ c h
    exact ⟨rfl, rfl⟩
  · intro o c h
    obtain ⟨inv, rfl⟩ := command_ok_elim w dc (rmArguments o) eo _ c h
    exact ⟨rfl, rfl⟩
  · intro o c h
    obtain ⟨inv, rfl⟩ := command_ok_elim w dc (downArguments o) eo _ c h
    exact ⟨rfl, rfl⟩

/-- Witness for C4 (amended) at the concrete session `dcW`. -/
theorem C4_public_surface_witness :
    upCallW.ret = MethodReturn.handle upCallW.invocation ∧
    rmCallW.ret = MethodReturn.unit ∧ rmCallW.awaited = true := by
  have h1 := (C4_public_surface okWorld dcW none).1 {} upCallW (by decide)
  have h2 := (C4_public_surface okWorld dcW none).2.2.2.1 {} rmCallW (by decide)
  exact ⟨h1.1, h2⟩

/-! ### C5 -/

/-- A session whose project name was configured as the empty string. -/
def dcEmptyName : DockerCompose where
  _file := FileField.single (ComposeFileSource.str "f.yml")
  _directory := "workdir"
  _projectName := some ""

/-- C5 counterexample: a session constructed with the empty-string project
name has a configured (present) project name, yet the global argument vector
contains no `--project-name` token — the source emits the pair only when the
name is JS-truthy, so the "if and only if configured" claim fails. -/
theorem C5_counterexample_empty_name :
    dcEmptyName._projectName = some "" ∧
    dcEmptyName._getGlobalArguments okWorld = Except.ok ["--file", "f.yml"] ∧
    "--project-name" ∉ ["--file", "f.yml"] :=
  ⟨rfl, by decide, by decide⟩

/-- C5 (amended): the global argument vector begins with the two tokens
`--project-name`, `<name>` immediately before the `--file` pairs iff a
non-empty (JS-truthy) project name was configured on the session; when the
name is absent or empty, the vector is exactly the file arguments. -/
theorem C5_projectName_pair (w : World) (dc : DockerCompose)
    (files g : List String)
    (hf : dc._getFilesArguments w = Except.ok files)
    (hg : dc._getGlobalArguments w = Except.ok g) :
    (∀ n, dc._projectName = some n → n ≠ "" →
      g = "--project-name" :: n :: files) ∧
    ((dc._projectName = none ∨ dc._projectName = some "") → g = files) := by
  rw [DockerCompose._getGlobalArguments, hf] at hg
  simp only [Except.map] at hg
  injection hg with h2
  constructor
  · intro n hn hne
    rw [hn] at h2
    simpa [strTruthy, hne] using h2.symm
  · intro hcase
    rcases hcase with hn | hn <;> rw [hn] at h2 <;>
      simpa [strTruthy] using h2.symm

/-- Witness for C5 (amended) at the concrete session `dcW`. -/
theorem C5_projectName_pair_witness :
    gW = "--project-name" :: "proj" ::
      ["--file", "a.yml", "--file", "workdir/docker-compose.1.yml"] :=
  (C5_projectName_pair okWorld dcW
      ["--file", "a.yml", "--file", "workdir/docker-compose.1.yml"] gW
      (by decide) (by decide)).1 "proj" rfl (by decide)

/-! ### C6 -/

/-- A session with a single path-string configuration and no project name. -/
def dcC6 : DockerCompose where
  _file := FileField.single (ComposeFileSource.str "docker-compose.yml")
  _directory := "workdir"
  _projectName := none

/-- C6: `run('svc', undefined, ['--flag'], { env: { A: '1', B: '2' } })`
produces one `--env key=value` pair per env entry in insertion order,
followed later by the positional `svc` and `--flag`; the undefined inline
command contributes no token.  The full vector is shown. -/
theorem C6_run_env_pairs :
    (dcC6.run okWorld "svc" none ["--flag"]
        { env := [("A", "1"), ("B", "2")] } none).map
        (fun c => c.invocation.args) =
      Except.ok ["--file", "docker-compose.yml", "run", "--detach",
        "--env", "A=1", "--env", "B=2", "svc", "--flag"] := by decide

/-! ### C7 -/

/-- C7: `down({ timeout: 5 })` renders the timeout as the two separate tokens
`--timeout`, `5` (never the joined `--timeout=5`), and the pair appears after
the `--remove-orphans` and `--rmi` flags when those are also set. -/
theorem C7_down_timeout_tokens :
    downArguments { timeout := some 5 } = ["down", "--timeout", "5"] ∧
    "--timeout=5" ∉ downArguments { timeout := some 5 } ∧
    downArguments { removeOrphans := true, timeout := some 5 } =
      ["down", "--remove-orphans", "--timeout", "5"] ∧
    downArguments { rmi := some "local", timeout := some 5 } =
      ["down", "--rmi", "local", "--timeout", "5"] ∧
    downArguments { removeOrphans := true, rmi := some "all", timeout := some 5 } =
      ["down", "--remove-orphans", "--rmi", "all", "--timeout", "5"] := by
  decide

/-! ### C8 -/

/-- C8: a map entry whose value is the number 0 is still emitted as a flag
pair (`--scale svc=0`) — emission depends on the entry's presence — whereas
a scalar `timeout` equal to 0 is omitted entirely from the argument vectors
of both `up` and `down` (emission there depends on JS truthiness of the
field). -/
theorem C8_zero_policy :
    (∀ (option separator k : String) (rest : List (String × JSValue)),
      DockerCompose._joinArgumentsRecord option separator
          ((k, JSValue.num 0) :: rest) =
        option :: (k ++ separator ++ "0") ::
          DockerCompose._joinArgumentsRecord option separator rest) ∧
    upArguments { scale := [("svc", 0)] } =
      ["up", "--detach", "--scale", "svc=0"] ∧
    (∀ o : UpOptions,
      upArguments { o with timeout := some 0 } =
        upArguments { o with timeout := none }) ∧
    (∀ o : DownOptions,
      downArguments { o with timeout := some 0 } =
        downArguments { o with timeout := none }) := by
  refine ⟨?_, by decide, ?_, ?_⟩
  · intro option separator k rest
    rfl
  · intro o
    rfl
  · intro o
    rfl

/-! ### C9 -/

/-- C9: if materializing any configuration file fails, the failure propagates
to the caller unmodified (the very same error value) and no `Invocation` is
ever produced — in this model, producing an `Invocation` is the call to the
external spawn facility, so an `Except.error` result means it was never
reached, for `command` and for every public method built on it. -/
theorem C9_write_failure_no_spawn (w : World) (dc : DockerCompose)
    (eo : Option ExecaOptions) (e : String)
    (hf : dc._getFilesArguments w = Except.error e) :
    (∀ args, dc.command w args eo = Except.error e) ∧
    (∀ o, dc.up w o eo = Except.error e) ∧
    (∀ s cmd args o, dc.run w s cmd args o eo = Except.error e) ∧
    (∀ o, dc.rm w o eo = Except.error e) ∧
    (∀ o, dc.down w o eo = Except.error e) := by
  have hg := globalArguments_error w dc e hf
  have hcmd : ∀ args, dc.command w args eo = Except.error e := by
    intro args
    rw [DockerCompose.command, hg]
    rfl
  refine ⟨hcmd, ?_, ?_, ?_, ?_⟩
  · intro o
    rw [DockerCompose.up, hcmd]
    rfl
  · intro s cmd args o
    rw [DockerCompose.run, hcmd]
    rfl
  · intro o
    rw [DockerCompose.rm, hcmd]
    rfl
  · intro o
    rw [DockerCompose.down, hcmd]
    rfl

/-- Witness for C9: under a world whose writes fail with `EACCES`, the
session with a structured configuration element propagates exactly that
error from `command`. -/
theorem C9_write_failure_no_spawn_witness :
    dcW.command failWorld ["ps"] none = Except.error "EACCES" := by
  have hf : dcW._getFilesArguments failWorld = Except.error "EACCES" := by
    decide
  exact (C9_write_failure_no_spawn failWorld dcW none "EACCES" hf).1 ["ps"]

/-! ### C10 -/

/-- C10: in `run`, an empty-string inline command is omitted from the
positional arguments exactly as an absent one: for every world, session,
service, trailing args, options and execa options, the two calls produce
identical results (in particular identical argument vectors). -/
theorem C10_run_empty_command (w : World) (dc : DockerCompose)
    (service : String) (args : List String) (o : RunOptions)
    (eo : Option ExecaOptions) :
    dc.run w service (some "") args o eo = dc.run w service none args o eo :=
  rfl
